import Mathlib

/-!
Verification of the `llm_expert` repository's provider-abstraction layer.

The development shallowly embeds the Python sources:
  * `src/llm_client/llm_client.py`   (`BaseClient`)
  * `src/llm_client/llm_factory.py`  (`LLMClientFactory`)
  * `src/llm_client/providers/{openai,anthropic,google}.py`
  * `src/llm_client/clients/summarizer.py`

External effects (the HTTP GET performed by `requests.get` plus the
BeautifulSoup parse, and the remote completion calls) are modelled as
explicit outcome parameters; everything else is translated directly from
the Python source.
-/

/-- Python runtime value appearing in the `WebsiteData` dictionary: either a
`str` or the `None` object (`soup.title.string` can be `None`). -/
inductive PyVal where
  | str : String → PyVal
  | pyNone : PyVal
deriving Repr, DecidableEq

/-- Python `str(v)` as used by f-string interpolation: a string formats to
itself, `None` formats to `"None"`. -/
def PyVal.fmt : PyVal → String
  | .str s => s
  | .pyNone => "None"

/-- Whether the value is a Python `str`. -/
def PyVal.isStr : PyVal → Bool
  | .str _ => true
  | .pyNone => false

/-- Python `sep.join(xs)`. -/
def pyJoin (sep : String) : List String → String
  | [] => ""
  | [a] => a
  | a :: b :: rest => a ++ sep ++ pyJoin sep (b :: rest)

/-- Parsed HTML node as produced by BeautifulSoup's `html.parser` tree:
either a `NavigableString` or a `Tag` with a name and children. -/
inductive HtmlNode where
  | text : String → HtmlNode
  | elem : String → List HtmlNode → HtmlNode
deriving Repr

/-- Embedding of the clean-up loop in `BaseClient.fetch_website_content`:
`for irrelevant in soup.body(["script", "style", "img", "input"]):
irrelevant.decompose()` removes every descendant tag with one of those
names (decomposing an outer match also removes any nested matches). -/
def decomposeIrrelevant : List HtmlNode → List HtmlNode
  | [] => []
  | HtmlNode.text s :: rest => HtmlNode.text s :: decomposeIrrelevant rest
  | HtmlNode.elem tag ch :: rest =>
    if tag = "script" ∨ tag = "style" ∨ tag = "img" ∨ tag = "input" then
      decomposeIrrelevant rest
    else
      HtmlNode.elem tag (decomposeIrrelevant ch) :: decomposeIrrelevant rest

/-- All string nodes of a forest in document order (BeautifulSoup's
`Tag.strings` traversal underlying `get_text`). -/
def allStrings : List HtmlNode → List String
  | [] => []
  | HtmlNode.text s :: rest => s :: allStrings rest
  | HtmlNode.elem _ ch :: rest => allStrings ch ++ allStrings rest

/-- Python `s.strip()`: removes leading and trailing whitespace. -/
def pyStrip (s : String) : String :=
  ⟨((s.data.dropWhile Char.isWhitespace).reverse.dropWhile
      Char.isWhitespace).reverse⟩

/-- BeautifulSoup `tag.get_text(separator="\n", strip=True)` over the tag's
children: each string is stripped, strings that become empty are skipped,
and the rest are joined with the separator. -/
def get_text (children : List HtmlNode) : String :=
  pyJoin "\n" (((allStrings children).map pyStrip).filter (fun s => s ≠ ""))

/-- BeautifulSoup `node.string`: a text node is its own string; a tag with a
single child defers to that child; any other tag (zero or several
children) has string `None`. -/
def nodeString : HtmlNode → Option String
  | HtmlNode.text s => some s
  | HtmlNode.elem _ [c] => nodeString c
  | HtmlNode.elem _ (_ :: _ :: _) => none
  | HtmlNode.elem _ [] => none

/-- BeautifulSoup `tag.string` applied to a tag given by its child list. -/
def tagString : List HtmlNode → Option String
  | [c] => nodeString c
  | _ => none

/-- Result of parsing the fetched document: the children of the first
`title` element (if any) and the children of the `body` element (if any),
mirroring `soup.title` and `soup.body`. -/
structure HtmlDoc where
  titleElem : Option (List HtmlNode)
  bodyElem : Option (List HtmlNode)
deriving Repr

/-- Outcome of `requests.get(url, headers=...)` followed by
`response.raise_for_status()` and the BeautifulSoup parse: either a parsed
document, or an exception `e` (non-2xx status, network failure, or any
other exception) carrying `str(e)`. -/
inductive FetchOutcome where
  | success : HtmlDoc → FetchOutcome
  | failure : String → FetchOutcome
deriving Repr

/-- Value stored under `"title"` in the success branch of
`fetch_website_content`: `soup.title.string if soup.title else
"No title found"` (bs4 `Tag.__bool__` is always `True`, so presence of the
element decides the branch; `.string` may be `None`). -/
def titleVal (doc : HtmlDoc) : PyVal :=
  match doc.titleElem with
  | some ch =>
    match tagString ch with
    | some s => PyVal.str s
    | none => PyVal.pyNone
  | none => PyVal.str "No title found"

namespace BaseClient

/-- Embedding of `BaseClient.fetch_website_content` (llm_client.py lines
40-64). The whole body is wrapped in `try/except Exception`, so the
function is total: on any failure it returns the sentinel dictionary
`{"url": url, "title": "Error", "text": "Failed to fetch website: " +
str(e)}`; on success it returns `{"url": url, "title": <title>, "text":
<extracted text>}` where the text is the cleaned body text or
`"No body content found"` when the document has no body element. -/
def fetch_website_content (url : String) (outcome : FetchOutcome) :
    List (String × PyVal) :=
  match outcome with
  | .success doc =>
    let text : String :=
      match doc.bodyElem with
      | some ch => get_text (decomposeIrrelevant ch)
      | none => "No body content found"
    [("url", PyVal.str url), ("title", titleVal doc), ("text", PyVal.str text)]
  | .failure e =>
    [("url", PyVal.str url), ("title", PyVal.str "Error"),
     ("text", PyVal.str ("Failed to fetch website: " ++ e))]

end BaseClient

/-- Keyword arguments accepted by the factory's creation methods
(`kwargs.get("model")`, `kwargs.get("api_key")`, `kwargs.get("client_type")`);
`none` models an absent keyword. -/
structure Kwargs where
  model : Option String
  api_key : Option String
  client_type : Option String
deriving Repr, DecidableEq

/-- Exceptions raised by the factory: `ValueError` or `ImportError`, each
carrying its message. -/
inductive PyError where
  | valueError : String → PyError
  | importError : String → PyError
deriving Repr, DecidableEq

/-- The object built by a successful factory call:
`client_class(model=model, client=<provider SDK handle>(api_key=api_key),
headers=self.headers)`. The provider SDK handle is identified by the
class name; the key and headers are recorded as passed. -/
structure ClientSpec where
  clientClass : String
  model : String
  api_key : String
  headers : List (String × String)
deriving Repr, DecidableEq

/-- Python truthiness test `not api_key`: true exactly when the keyword is
absent (`None`) or the empty string. -/
def pyFalsy : Option String → Bool
  | none => true
  | some s => s == ""

/-- Python `provider.lower()`: lower-cases every character (the registered
provider names are ASCII, where `Char.toLower` agrees with Python). -/
def pyLower (s : String) : String :=
  ⟨s.data.map Char.toLower⟩

/-- Error message raised for an unknown client type:
`f"Unknown client type: {client_type}. Available types: {available_clients}"`
where `available_clients = ", ".join(client_classes.keys())`. -/
def unknownClientTypeMsg (client_classes : List (String × String))
    (client_type : String) : String :=
  "Unknown client type: " ++ client_type ++ ". Available types: " ++
    pyJoin ", " (client_classes.map Prod.fst)

namespace LLMClientFactory

/-- Common headers set in `LLMClientFactory.__init__`. -/
def headers : List (String × String) :=
  [("User-Agent",
    "Mozilla/5.0 (Windows NT 10.0; Win64; x64) AppleWebKit/537.36 (KHTML, like Gecko) Chrome/117.0.0.0 Safari/537.36")]

/-- The `client_classes` dictionary local to `_create_openai_client`. -/
def openai_client_classes : List (String × String) :=
  [("summarizer", "WebsiteSummarizerOpenAI"),
   ("content_extractor", "ContentExtractorOpenAI"),
   ("sentiment_analyzer", "SentimentAnalyzerOpenAI"),
   ("seo_analyzer", "SEOAnalyzerOpenAI")]

/-- The `client_classes` dictionary local to `_create_anthropic_client`. -/
def anthropic_client_classes : List (String × String) :=
  [("summarizer", "WebsiteSummarizerAnthropic"),
   ("content_extractor", "ContentExtractorAnthropic"),
   ("sentiment_analyzer", "SentimentAnalyzerAnthropic"),
   ("seo_analyzer", "SEOAnalyzerAnthropic")]

/-- The `client_classes` dictionary local to `_create_google_client`. -/
def google_client_classes : List (String × String) :=
  [("summarizer", "WebsiteSummarizerGoogle"),
   ("content_extractor", "ContentExtractorGoogle"),
   ("sentiment_analyzer", "SentimentAnalyzerGoogle"),
   ("seo_analyzer", "SEOAnalyzerGoogle")]

/-- Embedding of `LLMClientFactory._create_openai_client` (llm_factory.py
lines 58-109): defaults `model` to `"gpt-4o-mini"`, raises `ValueError`
when `api_key` is missing or empty, defaults `client_type` to
`"summarizer"`, and dispatches on the local `client_classes` dictionary.
The method performs no network activity. -/
def _create_openai_client (kwargs : Kwargs) : Except PyError ClientSpec :=
  let model := kwargs.model.getD "gpt-4o-mini"
  if pyFalsy kwargs.api_key then
    .error (.valueError "OpenAI API key is required")
  else
    let api_key := kwargs.api_key.getD ""
    let client_type := kwargs.client_type.getD "summarizer"
    match openai_client_classes.lookup client_type with
    | some cls => .ok ⟨cls, model, api_key, headers⟩
    | none =>
      .error (.valueError (unknownClientTypeMsg openai_client_classes client_type))

/-- Embedding of `LLMClientFactory._create_anthropic_client` (llm_factory.py
lines 111-170): raises `ImportError` when the anthropic package is not
installed, defaults `model` to `"claude-3-haiku-20240307"`, raises
`ValueError` when `api_key` is missing or empty, defaults `client_type` to
`"summarizer"`, and dispatches on the local `client_classes` dictionary.
The method performs no network activity. -/
def _create_anthropic_client (available : String → Bool) (kwargs : Kwargs) :
    Except PyError ClientSpec :=
  if available "anthropic" = false then
    .error (.importError
      "Anthropic package is not installed. Please install it with 'pip install anthropic'")
  else
    let model := kwargs.model.getD "claude-3-haiku-20240307"
    if pyFalsy kwargs.api_key then
      .error (.valueError "Anthropic API key is required")
    else
      let api_key := kwargs.api_key.getD ""
      let client_type := kwargs.client_type.getD "summarizer"
      match anthropic_client_classes.lookup client_type with
      | some cls => .ok ⟨cls, model, api_key, headers⟩
      | none =>
        .error (.valueError (unknownClientTypeMsg anthropic_client_classes client_type))

/-- Embedding of `LLMClientFactory._create_google_client` (llm_factory.py
lines 172-232): raises `ImportError` when the google package is not
installed, defaults `model` to `"gemini-pro"`, raises `ValueError` when
`api_key` is missing or empty (before `genai.configure`), defaults
`client_type` to `"summarizer"`, and dispatches on the local
`client_classes` dictionary. The method performs no network activity. -/
def _create_google_client (available : String → Bool) (kwargs : Kwargs) :
    Except PyError ClientSpec :=
  if available "google" = false then
    .error (.importError
      "Google Generative AI package is not installed. Please install it with 'pip install google-generativeai'")
  else
    let model := kwargs.model.getD "gemini-pro"
    if pyFalsy kwargs.api_key then
      .error (.valueError "Google API key is required")
    else
      let api_key := kwargs.api_key.getD ""
      let client_type := kwargs.client_type.getD "summarizer"
      match google_client_classes.lookup client_type with
      | some cls => .ok ⟨cls, model, api_key, headers⟩
      | none =>
        .error (.valueError (unknownClientTypeMsg google_client_classes client_type))

/-- The `self.providers` dictionary registered in
`LLMClientFactory.__init__` (llm_factory.py lines 27-31): exactly the three
entries `openai`, `anthropic` and `google`, each mapped to its bound
creation method. -/
def providers (available : String → Bool) :
    List (String × (Kwargs → Except PyError ClientSpec)) :=
  [("openai", _create_openai_client),
   ("anthropic", _create_anthropic_client available),
   ("google", _create_google_client available)]

/-- Embedding of the body of `LLMClientFactory.create_client` (llm_factory.py
lines 234-260) over an arbitrary `self.providers` table and
`self._available_providers` map: lower-cases the provider, looks it up in
the table, raises `ImportError` when the package is not installed,
dispatches to the registered creation method otherwise, and for an unknown
provider raises `ValueError` with a message enumerating
`", ".join(self.providers.keys())`. -/
def create_client_with
    (providersTable : List (String × (Kwargs → Except PyError ClientSpec)))
    (available : String → Bool) (provider : String) (kwargs : Kwargs) :
    Except PyError ClientSpec :=
  let provider_key := pyLower provider
  match providersTable.lookup provider_key with
  | some creator =>
    if available provider_key = false then
      .error (.importError
        ("The " ++ provider_key ++ " package is not installed. Please install it first."))
    else creator kwargs
  | none =>
    .error (.valueError
      ("Unknown provider: " ++ provider ++ ". Available providers: " ++
        pyJoin ", " (providersTable.map Prod.fst)))

/-- The method `LLMClientFactory.create_client` as invoked on a factory
instance: the table read by the body is the dictionary registered in
`__init__`. -/
def create_client (available : String → Bool) (provider : String)
    (kwargs : Kwargs) : Except PyError ClientSpec :=
  create_client_with (providers available) available provider kwargs

end LLMClientFactory

/-- A `WebsiteData` dictionary as returned by `fetch_website_content`. -/
abbrev WebsiteDict := List (String × PyVal)

/-- Python subscript `website_data[k]`. It is used only on dictionaries
produced by `fetch_website_content`, which always contain the keys `url`,
`title` and `text`, so the `KeyError` case (modelled by the `None`
default) is never reached there. -/
def dictItem (d : WebsiteDict) (k : String) : PyVal :=
  (d.lookup k).getD PyVal.pyNone

/-- One chat message dictionary `{"role": ..., "content": ...}`. -/
structure Msg where
  role : String
  content : String
deriving Repr, DecidableEq

/-- The message object inside an OpenAI-style completion choice. -/
structure ChatMessage where
  content : String
deriving Repr, DecidableEq

/-- One choice of an OpenAI-style chat completion response. -/
structure ChatChoice where
  message : ChatMessage
deriving Repr, DecidableEq

/-- An OpenAI-style chat completion response envelope. -/
structure ChatResponse where
  choices : List ChatChoice
deriving Repr, DecidableEq

/-- Invocation events recorded by the instrumented pipeline stages: a fetch
of a URL, a prompt construction, and a completion call. -/
inductive StageEvent where
  | fetch : String → StageEvent
  | prompt : StageEvent
  | complete : StageEvent
deriving Repr, DecidableEq

namespace BaseClient

/-- Embedding of `BaseClient.get_messages` (llm_client.py lines 97-115):
builds the two-message list from `self.get_system_prompt()` and
`self.get_user_prompt(website_data, ...)`. -/
def get_messages (system_prompt : String) (user_prompt : String) : List Msg :=
  [⟨"system", system_prompt⟩, ⟨"user", user_prompt⟩]

/-- Embedding of `BaseClient.process` (llm_client.py lines 117-135). The
body calls `self.fetch_website_content(url)`, then
`self.get_messages(website_data, ...)`, then
`self.client.chat.completions.create(model=..., messages=...)`, and
returns `response.choices[0].message.content`. The three collaborators are
dynamically dispatched in Python, so they are passed as functions; each
also reports the invocation events it performs, making the call sequence
of one `process` call observable. `Option` models the projection of the
first choice (`none` would be Python's `IndexError` on an empty choice
list). -/
def process
    (fetch : String → WebsiteDict × List StageEvent)
    (messagesOf : WebsiteDict → List Msg × List StageEvent)
    (createCompletion : String → List Msg → ChatResponse × List StageEvent)
    (model url : String) : Option String × List StageEvent :=
  let r1 := fetch url
  let r2 := messagesOf r1.1
  let r3 := createCompletion model r2.1
  ((r3.1.choices.head?).map (fun c => c.message.content), r1.2 ++ r2.2 ++ r3.2)

end BaseClient

namespace WebsiteSummarizer

/-- Embedding of `WebsiteSummarizer.get_system_prompt` (summarizer.py): the
literal triple-quoted string, including its line breaks and indentation. -/
def get_system_prompt : String :=
  "You are an assistant that analyzes the contents of a website \n                and provides a short summary, ignoring text that might be navigation related. \n                Respond in markdown."

/-- Embedding of `WebsiteSummarizer.get_user_prompt` (summarizer.py): the
literal triple-quoted f-string interpolating `website_data['title']` and
`website_data['text']`. -/
def get_user_prompt (website_data : WebsiteDict) : String :=
  "You are looking at a website titled " ++ (dictItem website_data "title").fmt ++
    ". \n                The contents of this website is as follows; \n                please provide a short summary of this website in markdown. \n                If it includes news or announcements, then summarize these too.\n\n                " ++
    (dictItem website_data "text").fmt

end WebsiteSummarizer

/-- Request record built by `AnthropicClientMixin.process`: the keyword
arguments of `self.client.messages.create(model=..., system=...,
messages=..., max_tokens=4096)`. -/
structure AnthropicRequest where
  model : String
  system : String
  messages : List Msg
  max_tokens : Nat
deriving Repr, DecidableEq

/-- One content block of an Anthropic response. -/
structure ContentBlock where
  text : String
deriving Repr, DecidableEq

/-- An Anthropic messages-API response envelope. -/
structure AnthropicResponse where
  content : List ContentBlock
deriving Repr, DecidableEq

/-- Embedding of `AnthropicClientMixin.process` (providers/anthropic.py
lines 16-41): fetches the website, builds the system and user prompts,
sends the system prompt as the top-level `system` field together with a
single user message and `max_tokens=4096`, and returns
`response.content[0].text` (`Option` models the projection of the first
block). -/
def AnthropicClientMixin.process (system_prompt : String)
    (user_prompt : WebsiteDict → String)
    (backend : AnthropicRequest → AnthropicResponse)
    (model url : String) (outcome : FetchOutcome) : Option String :=
  let website_data := BaseClient.fetch_website_content url outcome
  let resp := backend
    { model := model, system := system_prompt,
      messages := [⟨"user", user_prompt website_data⟩], max_tokens := 4096 }
  (resp.content.head?).map (fun b => b.text)

/-- Embedding of `GoogleClientMixin.process` (providers/google.py lines
16-54): fetches the website, builds the prompts, combines them as
`f"{system_prompt}\n\n{user_prompt}"`, and generates. The whole generation
is inside `try/except`: on an exception `e` it tries
`self.client.list_models()` and returns
`f"Error with Gemini model '{model}'. Available models: {joined}\nOriginal
error: {e}"`, and when listing also fails it returns
`f"Error with Gemini model '{model}': {e}"`. `generate` is the effect of
`GenerativeModel(model_name).generate_content(...).text` (its `Except`
error carries `str(e)`), and `list_models` the effect of enumerating the
available model names. -/
def GoogleClientMixin.process (system_prompt : String)
    (user_prompt : WebsiteDict → String) (model : String)
    (generate : String → Except String String)
    (list_models : Except String (List String))
    (url : String) (outcome : FetchOutcome) : String :=
  let website_data := BaseClient.fetch_website_content url outcome
  let combined_prompt := system_prompt ++ "\n\n" ++ user_prompt website_data
  match generate combined_prompt with
  | .ok t => t
  | .error e =>
    match list_models with
    | .ok names =>
      "Error with Gemini model '" ++ model ++ "'. Available models: " ++
        pyJoin ", " names ++ "\nOriginal error: " ++ e
    | .error _ =>
      "Error with Gemini model '" ++ model ++ "': " ++ e

/-- Occurrence of `needle` inside `hay`, stated on the underlying character
lists. -/
def containsStr (hay needle : String) : Prop :=
  ∃ pre post, hay.data = pre ++ needle.data ++ post

lemma containsStr_appendLeft (a b needle : String)
    (h : containsStr b needle) : containsStr (a ++ b) needle := by
  obtain ⟨pre, post, hp⟩ := h
  exact ⟨a.data ++ pre, post, by simp [String.data_append, hp]⟩

lemma pyJoin_containsStr (sep : String) :
    ∀ (l : List String) (k : String), k ∈ l → containsStr (pyJoin sep l) k := by
  intro l
  induction l with
  | nil => intro k hk; cases hk
  | cons a rest ih =>
    intro k hk
    cases rest with
    | nil =>
      have hka : k = a := by simpa using hk
      subst hka
      exact ⟨[], [], by simp [pyJoin]⟩
    | cons b t =>
      rcases List.mem_cons.mp hk with hka | hkr
      · subst hka
        exact ⟨[], (sep ++ pyJoin sep (b :: t)).data,
          by simp [pyJoin, String.data_append]⟩
      · obtain ⟨pre, post, hp⟩ := ih k hkr
        exact ⟨(a ++ sep).data ++ pre, post,
          by simp [pyJoin, String.data_append, hp]⟩

lemma lookup_eq_none_of_not_mem_keys {β : Type} :
    ∀ (l : List (String × β)) (k : String),
      k ∉ l.map Prod.fst → l.lookup k = none := by
  intro l
  induction l with
  | nil => intro k _; rfl
  | cons a rest ih =>
    intro k hk
    obtain ⟨k1, v1⟩ := a
    have h1 : k ≠ k1 := fun he => hk (by simp [he])
    have h2 : k ∉ rest.map Prod.fst := fun hm => hk (by simp [hm])
    have hb : (k == k1) = false := by simp [h1]
    simp [List.lookup, hb, ih k h2]

lemma string_append_assoc (a b c : String) : a ++ b ++ c = a ++ (b ++ c) := by
  apply String.ext
  simp [String.data_append]

/-- C2: for every URL and every outcome of the underlying HTTP GET and HTML
parse (non-2xx status, network failure, or any other exception — all of
which the `try/except Exception` in `fetch_website_content` turns into a
`FetchOutcome.failure` carrying the exception's message), the function
never raises: it returns the sentinel dictionary `{url: <input url>,
title: "Error", text: "Failed to fetch website: " + <message>}`, so
downstream stages always receive a well-formed `WebsiteData`. -/
theorem c2_fetch_failure_sentinel (url e : String) :
    BaseClient.fetch_website_content url (FetchOutcome.failure e) =
      [("url", PyVal.str url), ("title", PyVal.str "Error"),
       ("text", PyVal.str ("Failed to fetch website: " ++ e))] := rfl

/-- C7: for every URL, fetch outcome, prompt pair and backend, the
Anthropic-style adapter's `process` sends the system prompt as the
distinct top-level `system` field (not a message), sends exactly one user
message containing the user prompt built from the fetched data, sets the
fixed `max_tokens = 4096` ceiling on the request, and returns the first
content block's text of the response (illustrated on a two-block
response, where the first block is returned). -/
theorem c7_anthropic_request_shape (system_prompt : String)
    (user_prompt : WebsiteDict → String)
    (backend : AnthropicRequest → AnthropicResponse)
    (model url : String) (outcome : FetchOutcome) :
    (AnthropicClientMixin.process system_prompt user_prompt backend model url outcome =
      ((backend
        { model := model, system := system_prompt,
          messages := [⟨"user",
            user_prompt (BaseClient.fetch_website_content url outcome)⟩],
          max_tokens := 4096 }).content.head?).map (fun b => b.text))
    ∧ AnthropicClientMixin.process "sys" (fun _ => "usr")
        (fun _ => ⟨[⟨"first"⟩, ⟨"second"⟩]⟩) "m" "http://x"
        (FetchOutcome.failure "refused") = some "first" :=
  ⟨rfl, rfl⟩

/-- C5: for every input, the Google-style adapter's `process` concatenates
the system prompt and the user prompt with a blank-line separator into one
prompt string (witnessed by a probe backend echoing its prompt), and on
any failure of the generation call it does not raise but returns a string
starting with "Error" that includes the enumerated list of available
models, or — if listing also fails — just the original error; callers
receive this as an ordinary string result. -/
theorem c5_google_prompt_and_errors (system_prompt : String)
    (user_prompt : WebsiteDict → String) (model url e e2 : String)
    (names : List String) (lm : Except String (List String))
    (outcome : FetchOutcome) :
    (GoogleClientMixin.process system_prompt user_prompt model Except.ok lm url outcome
      = system_prompt ++ "\n\n" ++
          user_prompt (BaseClient.fetch_website_content url outcome))
    ∧ (GoogleClientMixin.process system_prompt user_prompt model
          (fun _ => Except.error e) (Except.ok names) url outcome
        = "Error with Gemini model '" ++ model ++ "'. Available models: " ++
            pyJoin ", " names ++ "\nOriginal error: " ++ e)
    ∧ (∃ rest, GoogleClientMixin.process system_prompt user_prompt model
          (fun _ => Except.error e) (Except.ok names) url outcome
        = "Error" ++ rest)
    ∧ (GoogleClientMixin.process system_prompt user_prompt model
          (fun _ => Except.error e) (Except.error e2) url outcome
        = "Error with Gemini model '" ++ model ++ "': " ++ e)
    ∧ (∃ rest, GoogleClientMixin.process system_prompt user_prompt model
          (fun _ => Except.error e) (Except.error e2) url outcome
        = "Error" ++ rest) := by
  refine ⟨rfl, rfl, ?_, rfl, ?_⟩
  · refine ⟨" with Gemini model '" ++ (model ++ ("'. Available models: " ++
      (pyJoin ", " names ++ ("\nOriginal error: " ++ e)))), ?_⟩
    have hsplit : ("Error with Gemini model '" : String)
        = "Error" ++ " with Gemini model '" := rfl
    show "Error with Gemini model '" ++ model ++ "'. Available models: " ++
        pyJoin ", " names ++ "\nOriginal error: " ++ e = _
    rw [hsplit]
    simp only [string_append_assoc]
  · refine ⟨" with Gemini model '" ++ (model ++ ("': " ++ e)), ?_⟩
    have hsplit : ("Error with Gemini model '" : String)
        = "Error" ++ " with Gemini model '" := rfl
    show "Error with Gemini model '" ++ model ++ "': " ++ e = _
    rw [hsplit]
    simp only [string_append_assoc]

/-- C8: for every URL and stage results, `BaseClient.process` performs
exactly one fetch of the URL, builds the messages from the fetched data
exactly once, issues exactly one completion call, and returns exactly the
completion text of the first choice unchanged; in particular, with a mock
completion backend returning the fixed text "SUMMARY" for any input,
`process("http://site.test")` on a Summarizer client (real fetch and real
summarizer prompt stages, each instrumented) returns exactly "SUMMARY"
with the fetch and prompt stages each invoked exactly once. -/
theorem c8_process_pipeline (model url : String) (wd : WebsiteDict)
    (msgs : List Msg) (resp : ChatResponse) :
    (BaseClient.process (fun u => (wd, [StageEvent.fetch u]))
        (fun _ => (msgs, [StageEvent.prompt]))
        (fun _ _ => (resp, [StageEvent.complete])) model url
      = ((resp.choices.head?).map (fun c => c.message.content),
         [StageEvent.fetch url, StageEvent.prompt, StageEvent.complete]))
    ∧ (BaseClient.process
        (fun u => (BaseClient.fetch_website_content u
          (FetchOutcome.success ⟨some [HtmlNode.text "Site"],
            some [HtmlNode.text "Hello"]⟩), [StageEvent.fetch u]))
        (fun d => (BaseClient.get_messages WebsiteSummarizer.get_system_prompt
          (WebsiteSummarizer.get_user_prompt d), [StageEvent.prompt]))
        (fun _ _ => (⟨[⟨⟨"SUMMARY"⟩⟩]⟩, [StageEvent.complete]))
        "gpt-4o-mini" "http://site.test"
      = (some "SUMMARY",
         [StageEvent.fetch "http://site.test", StageEvent.prompt,
          StageEvent.complete])) :=
  ⟨rfl, rfl⟩

/-- C9: when `client_type` is omitted, each registered provider's client
constructor defaults it to "summarizer", and when `model` is omitted each
provider applies its own default model: "gpt-4o-mini" for openai,
"claude-3-haiku-20240307" for anthropic, and "gemini-pro" for google. -/
theorem c9_provider_defaults (k : String) (hk : k ≠ "") :
    LLMClientFactory._create_openai_client ⟨none, some k, none⟩
      = Except.ok ⟨"WebsiteSummarizerOpenAI", "gpt-4o-mini", k,
          LLMClientFactory.headers⟩
    ∧ LLMClientFactory._create_anthropic_client (fun _ => true) ⟨none, some k, none⟩
      = Except.ok ⟨"WebsiteSummarizerAnthropic", "claude-3-haiku-20240307", k,
          LLMClientFactory.headers⟩
    ∧ LLMClientFactory._create_google_client (fun _ => true) ⟨none, some k, none⟩
      = Except.ok ⟨"WebsiteSummarizerGoogle", "gemini-pro", k,
          LLMClientFactory.headers⟩ := by
  refine ⟨?_, ?_, ?_⟩ <;>
    simp [LLMClientFactory._create_openai_client,
      LLMClientFactory._create_anthropic_client,
      LLMClientFactory._create_google_client, pyFalsy, hk, List.lookup,
      LLMClientFactory.openai_client_classes,
      LLMClientFactory.anthropic_client_classes,
      LLMClientFactory.google_client_classes]

/-- Witness for C9 at the concrete key "sk-test". -/
theorem c9_provider_defaults_witness :
    ("sk-test" ≠ "")
    ∧ (LLMClientFactory._create_openai_client ⟨none, some "sk-test", none⟩
        = Except.ok ⟨"WebsiteSummarizerOpenAI", "gpt-4o-mini", "sk-test",
            LLMClientFactory.headers⟩
      ∧ LLMClientFactory._create_anthropic_client (fun _ => true)
          ⟨none, some "sk-test", none⟩
        = Except.ok ⟨"WebsiteSummarizerAnthropic", "claude-3-haiku-20240307",
            "sk-test", LLMClientFactory.headers⟩
      ∧ LLMClientFactory._create_google_client (fun _ => true)
          ⟨none, some "sk-test", none⟩
        = Except.ok ⟨"WebsiteSummarizerGoogle", "gemini-pro", "sk-test",
            LLMClientFactory.headers⟩) :=
  ⟨by decide, c9_provider_defaults "sk-test" (by decide)⟩

/-- C3: for every provider in openai, anthropic, google, calling the
factory's `create_client` with a missing or empty `api_key` raises a
`ValueError` whose message names the missing credential; the creation
methods perform no network activity, so the error precedes any network
call. -/
theorem c3_missing_credential_fails_fast (kwargs : Kwargs)
    (h : kwargs.api_key = none ∨ kwargs.api_key = some "") :
    LLMClientFactory.create_client (fun _ => true) "openai" kwargs
      = Except.error (PyError.valueError "OpenAI API key is required")
    ∧ LLMClientFactory.create_client (fun _ => true) "anthropic" kwargs
      = Except.error (PyError.valueError "Anthropic API key is required")
    ∧ LLMClientFactory.create_client (fun _ => true) "google" kwargs
      = Except.error (PyError.valueError "Google API key is required") := by
  have h1 : pyFalsy kwargs.api_key = true := by
    rcases h with h | h <;> simp [pyFalsy, h]
  have t1 : pyLower "openai" = "openai" := rfl
  have t2 : pyLower "anthropic" = "anthropic" := rfl
  have t3 : pyLower "google" = "google" := rfl
  refine ⟨?_, ?_, ?_⟩ <;>
    simp [LLMClientFactory.create_client, LLMClientFactory.create_client_with,
      LLMClientFactory.providers, t1, t2, t3, List.lookup,
      LLMClientFactory._create_openai_client,
      LLMClientFactory._create_anthropic_client,
      LLMClientFactory._create_google_client, h1]

/-- Witness for C3 at the concrete empty credential. -/
theorem c3_missing_credential_witness :
    ((⟨none, some "", none⟩ : Kwargs).api_key = none
      ∨ (⟨none, some "", none⟩ : Kwargs).api_key = some "")
    ∧ (LLMClientFactory.create_client (fun _ => true) "openai" ⟨none, some "", none⟩
        = Except.error (PyError.valueError "OpenAI API key is required")
      ∧ LLMClientFactory.create_client (fun _ => true) "anthropic" ⟨none, some "", none⟩
        = Except.error (PyError.valueError "Anthropic API key is required")
      ∧ LLMClientFactory.create_client (fun _ => true) "google" ⟨none, some "", none⟩
        = Except.error (PyError.valueError "Google API key is required")) :=
  ⟨Or.inr rfl, c3_missing_credential_fails_fast ⟨none, some "", none⟩ (Or.inr rfl)⟩

/-- C4: for every unknown provider string, `create_client` raises an error
whose message enumerates every provider in the live registered provider
table (the table is universally quantified here, exactly because the body
computes the enumeration from `self.providers` rather than hardcoding it),
and for every unrecognized `client_type` each per-provider creation method
raises an error whose message contains every client type registered in
that provider's dispatch table, the enumeration being computed by joining
the dictionary's keys. -/
theorem c4_error_enumerations
    (table : List (String × (Kwargs → Except PyError ClientSpec)))
    (available : String → Bool) (provider : String) (kwargs : Kwargs)
    (hprov : pyLower provider ∉ table.map Prod.fst)
    (ct k model : String) (hk : k ≠ "")
    (hct : ct ∉ ["summarizer", "content_extractor", "sentiment_analyzer",
                 "seo_analyzer"]) :
    (LLMClientFactory.create_client_with table available provider kwargs
       = Except.error (PyError.valueError
           ("Unknown provider: " ++ provider ++ ". Available providers: " ++
             pyJoin ", " (table.map Prod.fst)))
     ∧ ∀ p ∈ table.map Prod.fst,
         containsStr ("Unknown provider: " ++ provider ++
           ". Available providers: " ++ pyJoin ", " (table.map Prod.fst)) p)
    ∧ (LLMClientFactory._create_openai_client ⟨some model, some k, some ct⟩
         = Except.error (PyError.valueError
             (unknownClientTypeMsg LLMClientFactory.openai_client_classes ct))
       ∧ ∀ t ∈ LLMClientFactory.openai_client_classes.map Prod.fst,
           containsStr (unknownClientTypeMsg LLMClientFactory.openai_client_classes ct) t)
    ∧ (LLMClientFactory._create_anthropic_client (fun _ => true)
           ⟨some model, some k, some ct⟩
         = Except.error (PyError.valueError
             (unknownClientTypeMsg LLMClientFactory.anthropic_client_classes ct))
       ∧ ∀ t ∈ LLMClientFactory.anthropic_client_classes.map Prod.fst,
           containsStr (unknownClientTypeMsg LLMClientFactory.anthropic_client_classes ct) t)
    ∧ (LLMClientFactory._create_google_client (fun _ => true)
           ⟨some model, some k, some ct⟩
         = Except.error (PyError.valueError
             (unknownClientTypeMsg LLMClientFactory.google_client_classes ct))
       ∧ ∀ t ∈ LLMClientFactory.google_client_classes.map Prod.fst,
           containsStr (unknownClientTypeMsg LLMClientFactory.google_client_classes ct) t) := by
  have hmsg : ∀ (classes : List (String × String)) (t : String),
      t ∈ classes.map Prod.fst →
      containsStr (unknownClientTypeMsg classes ct) t := by
    intro classes t ht
    simp only [unknownClientTypeMsg]
    exact containsStr_appendLeft _ _ _ (pyJoin_containsStr ", " _ t ht)
  have hct1 : ct ∉ LLMClientFactory.openai_client_classes.map Prod.fst := by
    simpa [LLMClientFactory.openai_client_classes] using hct
  have hct2 : ct ∉ LLMClientFactory.anthropic_client_classes.map Prod.fst := by
    simpa [LLMClientFactory.anthropic_client_classes] using hct
  have hct3 : ct ∉ LLMClientFactory.google_client_classes.map Prod.fst := by
    simpa [LLMClientFactory.google_client_classes] using hct
  have hko := lookup_eq_none_of_not_mem_keys _ ct hct1
  have hka := lookup_eq_none_of_not_mem_keys _ ct hct2
  have hkg := lookup_eq_none_of_not_mem_keys _ ct hct3
  have hl := lookup_eq_none_of_not_mem_keys table (pyLower provider) hprov
  refine ⟨⟨?_, ?_⟩, ⟨?_, hmsg _⟩, ⟨?_, hmsg _⟩, ⟨?_, hmsg _⟩⟩
  · simp [LLMClientFactory.create_client_with, hl]
  · intro p hp
    exact containsStr_appendLeft _ _ _ (pyJoin_containsStr ", " _ p hp)
  · simp [LLMClientFactory._create_openai_client, pyFalsy, hk, hko]
  · simp [LLMClientFactory._create_anthropic_client, pyFalsy, hk, hka]
  · simp [LLMClientFactory._create_google_client, pyFalsy, hk, hkg]

/-- Witness for C4 at the factory's own provider table, the unknown
provider "deepseek" and the unknown client type "poet". -/
theorem c4_error_enumerations_witness :
    (pyLower "deepseek" ∉
        (LLMClientFactory.providers (fun _ => true)).map Prod.fst)
    ∧ ("k" ≠ "")
    ∧ ("poet" ∉ ["summarizer", "content_extractor", "sentiment_analyzer",
                 "seo_analyzer"])
    ∧ ((LLMClientFactory.create_client_with
          (LLMClientFactory.providers (fun _ => true)) (fun _ => true)
          "deepseek" ⟨none, some "k", none⟩
         = Except.error (PyError.valueError
             ("Unknown provider: " ++ "deepseek" ++ ". Available providers: " ++
               pyJoin ", "
                 ((LLMClientFactory.providers (fun _ => true)).map Prod.fst)))
       ∧ ∀ p ∈ (LLMClientFactory.providers (fun _ => true)).map Prod.fst,
           containsStr ("Unknown provider: " ++ "deepseek" ++
             ". Available providers: " ++
             pyJoin ", "
               ((LLMClientFactory.providers (fun _ => true)).map Prod.fst)) p)
      ∧ (LLMClientFactory._create_openai_client ⟨some "m", some "k", some "poet"⟩
           = Except.error (PyError.valueError
               (unknownClientTypeMsg LLMClientFactory.openai_client_classes "poet"))
         ∧ ∀ t ∈ LLMClientFactory.openai_client_classes.map Prod.fst,
             containsStr
               (unknownClientTypeMsg LLMClientFactory.openai_client_classes "poet") t)
      ∧ (LLMClientFactory._create_anthropic_client (fun _ => true)
             ⟨some "m", some "k", some "poet"⟩
           = Except.error (PyError.valueError
               (unknownClientTypeMsg LLMClientFactory.anthropic_client_classes "poet"))
         ∧ ∀ t ∈ LLMClientFactory.anthropic_client_classes.map Prod.fst,
             containsStr
               (unknownClientTypeMsg LLMClientFactory.anthropic_client_classes "poet") t)
      ∧ (LLMClientFactory._create_google_client (fun _ => true)
             ⟨some "m", some "k", some "poet"⟩
           = Except.error (PyError.valueError
               (unknownClientTypeMsg LLMClientFactory.google_client_classes "poet"))
         ∧ ∀ t ∈ LLMClientFactory.google_client_classes.map Prod.fst,
             containsStr
               (unknownClientTypeMsg LLMClientFactory.google_client_classes "poet") t)) :=
  ⟨by decide, by decide, by decide,
    c4_error_enumerations (LLMClientFactory.providers (fun _ => true))
      (fun _ => true) "deepseek" ⟨none, some "k", none⟩ (by decide)
      "poet" "k" "m" (by decide) (by decide)⟩

/-- C1 counterexample: the registered provider table contains no "ollama"
entry, so `create_client("ollama", ...)` raises the unknown-provider
`ValueError` instead of dispatching — refuting the claim that the
registered set is exactly openai, anthropic, google, ollama. -/
theorem c1_counterexample :
    LLMClientFactory.create_client (fun _ => true) "ollama" ⟨none, some "key", none⟩
      = Except.error (PyError.valueError
          "Unknown provider: ollama. Available providers: openai, anthropic, google") :=
  rfl

/-- C1 (amended): the registered provider set is exactly openai, anthropic
and google (ollama is not registered even though adapter classes for it
exist in the package); for every provider string whose lower-cased form is
one of these three, `create_client` matches it case-insensitively against
the registered table and dispatches to that provider's client constructor
rather than raising an unknown-provider error (given the provider's
package is installed). -/
theorem c1_registered_set_dispatch (provider : String) (kwargs : Kwargs)
    (available : String → Bool) :
    ((LLMClientFactory.providers available).map Prod.fst
      = ["openai", "anthropic", "google"])
    ∧ (pyLower provider = "openai" →
        LLMClientFactory.create_client (fun _ => true) provider kwargs
          = LLMClientFactory._create_openai_client kwargs)
    ∧ (pyLower provider = "anthropic" →
        LLMClientFactory.create_client (fun _ => true) provider kwargs
          = LLMClientFactory._create_anthropic_client (fun _ => true) kwargs)
    ∧ (pyLower provider = "google" →
        LLMClientFactory.create_client (fun _ => true) provider kwargs
          = LLMClientFactory._create_google_client (fun _ => true) kwargs) := by
  refine ⟨rfl, ?_, ?_, ?_⟩ <;> intro h <;>
    simp [LLMClientFactory.create_client, LLMClientFactory.create_client_with,
      LLMClientFactory.providers, h, List.lookup]

/-- Witness for the amended C1 at the mixed-case provider "OpenAI". -/
theorem c1_registered_set_dispatch_witness :
    (pyLower "OpenAI" = "openai")
    ∧ LLMClientFactory.create_client (fun _ => true) "OpenAI" ⟨none, some "key", none⟩
        = LLMClientFactory._create_openai_client ⟨none, some "key", none⟩ :=
  ⟨by decide,
    (c1_registered_set_dispatch "OpenAI" ⟨none, some "key", none⟩
      (fun _ => true)).2.1 (by decide)⟩

/-- C6 counterexample: on a document whose title element has two children
(text "a" and an element b containing "c"), `soup.title.string` is `None`,
so the returned title is Python `None` — neither the title element's text
nor the fallback "No title found", refuting the title conjunct of the
claim. -/
theorem c6_counterexample :
    ((BaseClient.fetch_website_content "http://t6"
        (FetchOutcome.success
          ⟨some [HtmlNode.text "a", HtmlNode.elem "b" [HtmlNode.text "c"]],
           some [HtmlNode.text "body"]⟩)).lookup "title"
      = some PyVal.pyNone)
    ∧ PyVal.isStr PyVal.pyNone = false :=
  ⟨rfl, rfl⟩

/-- C6 (amended): for every fetched document, the title value is
`soup.title.string` when a title element exists — the element's text when
it has a single string child, Python `None` otherwise — and the fallback
"No title found" when no title element exists; the extraction removes all
script, style, img and input elements from the body, trims each remaining
text node and joins the non-empty ones with newline separators (the
interleaved fixture yields exactly "A\nB\nC"), and a document with no body
element yields exactly "No body content found". -/
theorem c6_content_extraction (url s : String) (bodyCh ch : List HtmlNode)
    (hch : tagString ch = none) :
    (BaseClient.fetch_website_content url
        (FetchOutcome.success ⟨some [HtmlNode.text s], some bodyCh⟩)
      = [("url", PyVal.str url), ("title", PyVal.str s),
         ("text", PyVal.str (get_text (decomposeIrrelevant bodyCh)))])
    ∧ (BaseClient.fetch_website_content url (FetchOutcome.success ⟨none, none⟩)
      = [("url", PyVal.str url), ("title", PyVal.str "No title found"),
         ("text", PyVal.str "No body content found")])
    ∧ ((BaseClient.fetch_website_content url
          (FetchOutcome.success ⟨some ch, none⟩)).lookup "title"
      = some PyVal.pyNone)
    ∧ (BaseClient.fetch_website_content "http://fixture"
        (FetchOutcome.success ⟨some [HtmlNode.text "Fixture Title"],
          some [HtmlNode.text " A ",
                HtmlNode.elem "script" [HtmlNode.text "var x = 1;"],
                HtmlNode.text "B",
                HtmlNode.elem "style" [HtmlNode.text "p: red"],
                HtmlNode.elem "img" [],
                HtmlNode.text "\n C \n",
                HtmlNode.elem "input" []]⟩)
      = [("url", PyVal.str "http://fixture"), ("title", PyVal.str "Fixture Title"),
         ("text", PyVal.str "A\nB\nC")]) := by
  refine ⟨rfl, rfl, ?_, ?_⟩
  · simp [BaseClient.fetch_website_content, titleVal, hch, List.lookup]
  · simp [BaseClient.fetch_website_content, titleVal, tagString, nodeString,
      get_text, decomposeIrrelevant, allStrings, pyStrip, pyJoin,
      List.dropWhile, Char.isWhitespace]

/-- Witness for the amended C6 at a concrete two-child title element. -/
theorem c6_content_extraction_witness :
    (tagString [HtmlNode.text "x", HtmlNode.text "y"] = none)
    ∧ ((BaseClient.fetch_website_content "http://w6"
          (FetchOutcome.success
            ⟨some [HtmlNode.text "x", HtmlNode.text "y"], none⟩)).lookup "title"
      = some PyVal.pyNone) :=
  ⟨rfl,
    (c6_content_extraction "http://w6" "t" []
      [HtmlNode.text "x", HtmlNode.text "y"] rfl).2.2.1⟩

/-- C10 counterexample: on a document whose title element has two children
(an empty element i and text "z"), the returned dictionary's title value
is Python `None`, not a string — refuting the "string values" conjunct of
the claim. -/
theorem c10_counterexample :
    ((BaseClient.fetch_website_content "http://t10"
        (FetchOutcome.success
          ⟨some [HtmlNode.elem "i" [], HtmlNode.text "z"],
           some [HtmlNode.text "B"]⟩)).lookup "title"
      = some PyVal.pyNone)
    ∧ PyVal.isStr PyVal.pyNone = false :=
  ⟨rfl, rfl⟩

/-- C10 (amended): for every input URL and fetch outcome, the returned
dictionary contains exactly the keys url, title and text in that order;
the url value equals the input URL in both the success and the failure
branch; the text value is always a string; the title value is a string in
the failure branch and equals `titleVal` of the document in the success
branch — a string except when a title element exists without a single
string child, in which case it is Python `None`. -/
theorem c10_dict_shape (url : String) (outcome : FetchOutcome) :
    ((BaseClient.fetch_website_content url outcome).map Prod.fst
      = ["url", "title", "text"])
    ∧ ((BaseClient.fetch_website_content url outcome).lookup "url"
      = some (PyVal.str url))
    ∧ (∃ s, (BaseClient.fetch_website_content url outcome).lookup "text"
      = some (PyVal.str s))
    ∧ (match outcome with
       | FetchOutcome.failure _ =>
         (BaseClient.fetch_website_content url outcome).lookup "title"
           = some (PyVal.str "Error")
       | FetchOutcome.success doc =>
         (BaseClient.fetch_website_content url outcome).lookup "title"
           = some (titleVal doc)) := by
  cases outcome with
  | failure e => exact ⟨rfl, rfl, ⟨_, rfl⟩, rfl⟩
  | success doc => exact ⟨rfl, rfl, ⟨_, rfl⟩, rfl⟩
